import Mathlib

/-!
Shallow embedding of `TournamentSystem.py` from the maverick-chess
repository: the `ChessBoard`, `ChessMatch` and `TournamentSystem`
classes, together with theorems settling the frozen claims about them.

Conventions of the embedding:
* Board cells hold Python values (`None`, a one-character string
  constant, or a `(color, kind)` tuple); these are modelled by the
  inductive `PyVal`, whose derived decidable equality coincides with
  Python structural equality on these shapes (in particular a tuple is
  never equal to a string).
* Python lists are reference values.  `ChessBoard.__init__` builds the
  middle four ranks as `self.board += [[None] * 8] * 4`, i.e. four
  references to one shared row object.  The model therefore separates a
  `store` of row objects from the `rowIds` table mapping each rank to
  the row object it references; the start state maps ranks 2..5 to one
  shared row.
* In-place mutation is modelled by explicit state passing: `makePly`
  returns the updated board together with its Python return value.
* A Python call that raises is modelled with `Except`.
-/

namespace Maverick

/-- A Python value as stored in board cells and as compared against the
class constants of `ChessBoard`: `None`, a string constant, or a
`(color, kind)` tuple.  Python equality on these shapes is structural
and never identifies a tuple with a string; the derived decidable
equality mirrors that. -/
inductive PyVal where
  | pnone : PyVal
  | pstr : String → PyVal
  | ppair : PyVal → PyVal → PyVal
deriving DecidableEq

/-- Subscript `v[0]` of a two-element tuple.  The program only
subscripts cell values that are `(color, kind)` tuples; the fallback
branch is never reached on those. -/
def PyVal.item0 : PyVal → PyVal
  | .ppair a _ => a
  | v => v

/-- Subscript `v[1]` of a two-element tuple (see `PyVal.item0`). -/
def PyVal.item1 : PyVal → PyVal
  | .ppair _ b => b
  | v => v

/-- Constant `ChessBoard.PAWN = "P"`. -/
def PAWN : PyVal := PyVal.pstr "P"

/-- Constant `ChessBoard.ROOK = "R"`. -/
def ROOK : PyVal := PyVal.pstr "R"

/-- Constant `ChessBoard.KNGT = "N"`. -/
def KNGT : PyVal := PyVal.pstr "N"

/-- Constant `ChessBoard.BISH = "B"`. -/
def BISH : PyVal := PyVal.pstr "B"

/-- Constant `ChessBoard.QUEN = "Q"`. -/
def QUEN : PyVal := PyVal.pstr "Q"

/-- Constant `ChessBoard.KING = "K"`. -/
def KING : PyVal := PyVal.pstr "K"

/-- Constant `ChessBoard.BLACK = "X"`. -/
def BLACK : PyVal := PyVal.pstr "X"

/-- Constant `ChessBoard.WHITE = "O"`. -/
def WHITE : PyVal := PyVal.pstr "O"

/-- Constant `ChessBoard.BOARD_SIZE = 8`. -/
def BOARD_SIZE : Nat := 8

/-- State of a `ChessBoard` object: the grid (as a store of row objects
plus the rank-to-row reference table, see the module comment), the
per-color en passant flag lists, and the per-color castling flag
pairs (queen-side ability, king-side ability). -/
structure ChessBoard where
  store : List (List PyVal)
  rowIds : List Nat
  ep_white : List Bool
  ep_black : List Bool
  castle_white : Bool × Bool
  castle_black : Bool × Bool
deriving DecidableEq

/-- Dictionary read `self.flag_enpassant[color]` (the program only ever
uses the two color constants as keys). -/
def ChessBoard.flagEnpassant (b : ChessBoard) (color : PyVal) : List Bool :=
  if color = WHITE then b.ep_white else b.ep_black

/-- Dictionary write `self.flag_enpassant[color] = v`. -/
def ChessBoard.setEnpassant (b : ChessBoard) (color : PyVal) (v : List Bool) : ChessBoard :=
  if color = WHITE then { b with ep_white := v } else { b with ep_black := v }

/-- Dictionary read `self.flag_canCastle[color]`. -/
def ChessBoard.flagCanCastle (b : ChessBoard) (color : PyVal) : Bool × Bool :=
  if color = WHITE then b.castle_white else b.castle_black

/-- Dictionary write `self.flag_canCastle[color] = v`. -/
def ChessBoard.setCanCastle (b : ChessBoard) (color : PyVal) (v : Bool × Bool) : ChessBoard :=
  if color = WHITE then { b with castle_white := v } else { b with castle_black := v }

/-- The row object referenced by `self.board[rank]`. -/
def ChessBoard.rowOf (b : ChessBoard) (rank : Nat) : List PyVal :=
  b.store.getD (b.rowIds.getD rank 0) []

/-- Read `self.board[rank][file]` (for in-range indices of well-formed
boards, as everywhere in the program). -/
def ChessBoard.getCell (b : ChessBoard) (rank file : Nat) : PyVal :=
  (b.rowOf rank).getD file PyVal.pnone

/-- Write `self.board[rank][file] = v`.  The write goes to the row
OBJECT referenced by `rank`, so it is visible through every rank whose
reference points at the same row object. -/
def ChessBoard.setCell (b : ChessBoard) (rank file : Nat) (v : PyVal) : ChessBoard :=
  let rid := b.rowIds.getD rank 0
  { b with store := b.store.set rid ((b.store.getD rid []).set file v) }

/-- The WHITE back rank built in `ChessBoard.__init__` (and its BLACK
mirror image, by passing the other color). -/
def backRank (color : PyVal) : List PyVal :=
  [PyVal.ppair color ROOK, PyVal.ppair color KNGT, PyVal.ppair color BISH,
   PyVal.ppair color QUEN, PyVal.ppair color KING, PyVal.ppair color BISH,
   PyVal.ppair color KNGT, PyVal.ppair color ROOK]

/-- A rank of eight pawns of the given color. -/
def pawnRank (color : PyVal) : List PyVal :=
  List.replicate 8 (PyVal.ppair color PAWN)

/-- One empty row object. -/
def emptyRow : List PyVal :=
  List.replicate 8 PyVal.pnone

/-- The board built by `ChessBoard.__init__` with no `startBoard`
argument.  The statement `self.board += [[None] * 8] * 4` appends four
references to ONE empty row object, so ranks 2, 3, 4 and 5 all share
row object 2 of the store; ranks 0, 1, 6 and 7 each have their own row
object.  All en passant flags start false and all castle flags start
true. -/
def initBoard : ChessBoard :=
  { store := [backRank WHITE, pawnRank WHITE, emptyRow, pawnRank BLACK, backRank BLACK]
    rowIds := [0, 1, 2, 2, 2, 2, 3, 4]
    ep_white := List.replicate BOARD_SIZE false
    ep_black := List.replicate BOARD_SIZE false
    castle_white := (true, true)
    castle_black := (true, true) }

/-- `ChessBoard.isLegalMove(color, fromRank, fromFile, toRank, toFile)`,
transcribed clause for clause from the source: the origin must hold a
piece of `color`; a pawn must additionally pass the pawn block (note
that the source sets `pawnStartRank = 2` for WHITE and compares
`fromFile`, not `fromRank`, against it, and that the source contains no
shape checks for the other piece kinds); finally the destination must
not hold a piece of `color`. -/
def ChessBoard.isLegalMove (b : ChessBoard) (color : PyVal)
    (fromRank fromFile toRank toFile : Nat) : Bool :=
  let origin_entry := b.getCell fromRank fromFile
  let destin_entry := b.getCell toRank toFile
  if origin_entry = PyVal.pnone ∨ origin_entry.item0 ≠ color then
    false
  else
    let origin_type := origin_entry.item1
    let pawnBlockOk : Bool :=
      if origin_type = PAWN then
        let pawnStartRank : Int := if color = WHITE then 2 else 6
        let direction : Int := if color = WHITE then 1 else -1
        let rank_delta : Int := ((toRank : Int) - (fromRank : Int)) * direction
        let file_delta_abs : Int := |(toFile : Int) - (fromFile : Int)|
        if rank_delta ≠ 1 ∧ rank_delta ≠ 2 then
          false
        else if rank_delta = 1 then
          if file_delta_abs ≠ 0 ∧ file_delta_abs ≠ 1 then
            false
          else if file_delta_abs = 1 ∧ destin_entry = PyVal.pnone then
            false
          else if file_delta_abs = 0 ∧ destin_entry ≠ PyVal.pnone then
            false
          else
            true
        else
          if file_delta_abs ≠ 0 then
            false
          else if (fromFile : Int) ≠ pawnStartRank then
            false
          else
            true
      else
        true
    if ¬ pawnBlockOk then
      false
    else if destin_entry ≠ PyVal.pnone ∧ destin_entry.item0 = color then
      false
    else
      true

/-- `ChessBoard.makePly(color, fromRank, fromFile, toRank, toFile)`,
transcribed statement for statement from the source.  Note that
`movedPiece` is a `(color, kind)` tuple while `self.KING`, `self.ROOK`
and `self.PAWN` are strings, so those three equality tests compare a
tuple with a string, which in Python is false for every cell value; the
derived equality of `PyVal` computes the same answer. -/
def ChessBoard.makePly (b : ChessBoard) (color : PyVal)
    (fromRank fromFile toRank toFile : Nat) : ChessBoard × Bool :=
  if ¬ b.isLegalMove color fromRank fromFile toRank toFile then
    (b, false)
  else
    let movedPiece := b.getCell fromRank fromFile
    let b := b.setCell fromRank fromFile PyVal.pnone
    let b := b.setEnpassant color (List.replicate BOARD_SIZE false)
    let prevCastleFlag := b.flagCanCastle color
    let b := if movedPiece = KING then b.setCanCastle color (false, false) else b
    let b :=
      if movedPiece = ROOK then
        if fromFile = 0 then
          b.setCanCastle color (false, prevCastleFlag.2)
        else if fromFile = 7 then
          b.setCanCastle color (prevCastleFlag.1, false)
        else
          b
      else
        b
    let b :=
      if movedPiece = PAWN ∧ fromRank = (if color = WHITE then 1 else 6) ∧
          ((toRank : Int) - (fromRank : Int)).natAbs = 2 then
        b.setEnpassant color ((b.flagEnpassant color).set fromFile true)
      else
        b
    let b := b.setCell toRank toFile movedPiece
    let b :=
      if (b.flagEnpassant color).getD toFile false then
        if color = WHITE ∧ toRank = BOARD_SIZE - 2 then
          b.setCell (BOARD_SIZE - 2) toFile PyVal.pnone
        else if color = BLACK ∧ toRank = 1 then
          b.setCell 2 toFile PyVal.pnone
        else
          b
      else
        b
    (b, true)

/-- Constant `ChessMatch.STATUS_PENDING = "PENDING"`. -/
def STATUS_PENDING : String := "PENDING"

/-- Constant `ChessMatch.STATUS_ONGOING = "ONGOING"`. -/
def STATUS_ONGOING : String := "ONGOING"

/-- Constant `ChessMatch.STATUS_BLACK_WON = "W_BLACK"`. -/
def STATUS_BLACK_WON : String := "W_BLACK"

/-- Constant `ChessMatch.STATUS_WHITE_WON = "W_WHITE"`. -/
def STATUS_WHITE_WON : String := "W_WHITE"

/-- Constant `ChessMatch.STATUS_DRAWN = "W_DRAWN"`. -/
def STATUS_DRAWN : String := "W_DRAWN"

/-- Constant `ChessMatch.STATUS_CANCELLED = "CANCELD"`. -/
def STATUS_CANCELLED : String := "CANCELD"

/-- State of a `ChessMatch` object: the board, the `self.players` dict
(one optional playerID slot per color), the status string and the ply
history. -/
structure ChessMatch where
  board : ChessBoard
  players_white : Option Nat
  players_black : Option Nat
  status : String
  history : List ((Nat × Nat) × (Nat × Nat))
deriving DecidableEq

/-- `ChessMatch.__init__(firstPlayerID)`: a fresh board, a PENDING
status, an empty history, and `firstPlayerID` written into the slot
picked by `random.choice(self.players.keys())`.  The random choice is
modelled by the injected boolean `coin` (`true` picks the WHITE slot).
Passing `firstPlayerID = none` models the default `None` argument, for
which the random write is a no-op on the slot values. -/
def ChessMatch.init (firstPlayerID : Option Nat) (coin : Bool) : ChessMatch :=
  { board := initBoard
    players_white := if coin then firstPlayerID else none
    players_black := if coin then none else firstPlayerID
    status := STATUS_PENDING
    history := [] }

/-- `ChessMatch.whoseTurn()`: WHITE when the history length is even,
BLACK otherwise. -/
def ChessMatch.whoseTurn (m : ChessMatch) : PyVal :=
  if m.history.length % 2 = 0 then WHITE else BLACK

/-- `ChessMatch.makePly(player, fromRank, fromFile, toRank, toFile)`,
transcribed from the source: requires an ONGOING status, resolves the
color whose slot holds `player` (WHITE checked first), requires that
color to be the one to move, then delegates to the board and appends to
the history exactly on board success.  Returns the updated match state
together with the returned message string. -/
def ChessMatch.makePly (m : ChessMatch) (player : Nat)
    (fromRank fromFile toRank toFile : Nat) : ChessMatch × String :=
  if m.status = STATUS_ONGOING then
    if m.players_white = some player ∨ m.players_black = some player then
      let color := if m.players_white = some player then WHITE else BLACK
      if color ≠ m.whoseTurn then
        (m, "It is not your turn")
      else
        let res := m.board.makePly color fromRank fromFile toRank toFile
        if res.2 then
          ({ m with board := res.1,
                    history := m.history ++ [((fromRank, fromFile), (toRank, toFile))] },
           "SUCCESS")
        else
          ({ m with board := res.1 }, "Illegal move")
    else
      (m, "You are not a player in this game")
  else
    (m, "Game not in progress")

/-- `ChessMatch.join(playerID)`, transcribed from the source: only a
PENDING match can be joined; `playerID in self.players.values()` (for
the integer playerIDs the program uses, membership in the two slot
values) forbids playing both sides; otherwise the loop over
`[WHITE, BLACK]` assigns the first empty slot, switches the status to
ONGOING when no slot is left empty, and returns the assigned color.
Returns the updated match state together with the returned value
(`none` models the bare `return`). -/
def ChessMatch.join (m : ChessMatch) (playerID : Nat) : ChessMatch × Option PyVal :=
  if m.status ≠ STATUS_PENDING then
    (m, none)
  else if m.players_white = some playerID ∨ m.players_black = some playerID then
    (m, none)
  else if m.players_white = none then
    let m := { m with players_white := some playerID }
    let m := if m.players_white ≠ none ∧ m.players_black ≠ none then
               { m with status := STATUS_ONGOING }
             else m
    (m, some WHITE)
  else if m.players_black = none then
    let m := { m with players_black := some playerID }
    let m := if m.players_white ≠ none ∧ m.players_black ≠ none then
               { m with status := STATUS_ONGOING }
             else m
    (m, some BLACK)
  else
    (m, none)

/-- A Python exception raised by the code under test.  `typeError`
models `TypeError`. -/
inductive PyError where
  | typeError : PyError
deriving DecidableEq

/-- State of a `TournamentSystem` object: the `self.games` dict from
gameIDs to matches and the `self.players` dict from playerIDs to names,
both modelled as association lists in a stable enumeration order. -/
structure TournamentSystem where
  games : List (Nat × ChessMatch)
  players : List (Nat × String)
deriving DecidableEq

/-- Association list lookup, modelling dict indexing and
`dict.has_key`. -/
def lookupAssoc {α : Type} : List (Nat × α) → Nat → Option α
  | [], _ => none
  | (k, v) :: rest, key => if k = key then some v else lookupAssoc rest key

/-- `TournamentSystem.makePly(playerID, gameID, fromRank, fromFile,
toRank, toFile)`.  When `gameID` is unknown the source returns
`(False, dict with the error "Invalid game ID")`.  When `gameID` is
known, the source executes
`self.games[gameID].makePly(playerID, gameID, fromRank, fromFile,
toRank, toFile)`: six positional arguments passed to the five-parameter
method `ChessMatch.makePly`, which in Python raises `TypeError` before
the body of the callee runs; the model returns that exception. -/
def TournamentSystem.makePly (ts : TournamentSystem)
    (playerID gameID fromRank fromFile toRank toFile : Nat) :
    Except PyError (TournamentSystem × (Bool × List (String × String))) :=
  match lookupAssoc ts.games gameID with
  | some _ => Except.error PyError.typeError
  | none => Except.ok (ts, (false, [("error", "Invalid game ID")]))

/-- `TournamentSystem.joinGame(playerID)`.  The source iterates
`for (gameID, game) in self.games:`; in Python 2 iterating a dict
yields its keys, and the gameID keys are integers, so the tuple
unpacking raises `TypeError` on the first iteration whenever
`self.games` is nonempty (were the unpacking fixed, the loop body would
next raise `AttributeError`, because `ChessMatch` defines no
`getStatus` method).  With an empty `self.games` the loop body never
runs and the source creates a new `ChessMatch(playerID)` under a fresh
identifier.  The fresh identifier drawn by `_getUniqueInt` is modelled
by the injected `newID`, and the random slot choice inside
`ChessMatch.__init__` by the injected `coin`. -/
def TournamentSystem.joinGame (ts : TournamentSystem) (playerID : Nat)
    (coin : Bool) (newID : Nat) :
    Except PyError (TournamentSystem × (Bool × List (String × Nat))) :=
  match ts.games with
  | [] =>
      let newGame := ChessMatch.init (some playerID) coin
      Except.ok ({ ts with games := ts.games ++ [(newID, newGame)] },
                 (true, [("gameID", newID)]))
  | _ :: _ => Except.error PyError.typeError

/-- Claim C1.  The claim says `isLegalMove` returns true for a non-pawn
piece only when the piece-kind shape rule holds.  In the source the
piece-kind dispatch handles only pawns, so any non-pawn piece may move
to any square not holding a piece of its own color: on the initial
board the WHITE ROOK at (0,0) is allowed to move to (2,3), a
displacement that is neither horizontal nor vertical (nor diagonal), so
no rook shape rule is satisfied there. -/
theorem c1_rook_shape_not_checked :
    initBoard.getCell 0 0 = PyVal.ppair WHITE ROOK ∧
    initBoard.isLegalMove WHITE 0 0 2 3 = true ∧
    (0 : Nat) ≠ 2 ∧ (0 : Nat) ≠ 3 ∧
    ((2 : Int) - 0).natAbs ≠ ((3 : Int) - 0).natAbs := by
  decide

/-- Claim C2.  The unknown-gameID branch of `TournamentSystem.makePly`
does return the invalid-game-ID error, but for a known gameID the
delegation itself raises `TypeError`: the source passes `gameID` as an
extra positional argument to `ChessMatch.makePly`, so no result is ever
translated. -/
theorem c2_makePly_delegation_raises :
    (TournamentSystem.makePly ⟨[(7, ChessMatch.init (some 1) true)], []⟩ 1 7 1 0 2 0
      = Except.error PyError.typeError) ∧
    (TournamentSystem.makePly ⟨[], []⟩ 1 7 1 0 2 0
      = Except.ok (⟨[], []⟩, (false, [("error", "Invalid game ID")]))) :=
  ⟨rfl, rfl⟩

/-- Claim C3.  On the initial board the WHITE pawn at (1,0) cannot move
to (3,0) even though (2,0) and (3,0) are empty: the source sets
`pawnStartRank = 2` for WHITE and compares `fromFile` (here 0) against
it, so the claimed equivalence fails. -/
theorem c3_pawn_double_advance_rejected :
    initBoard.getCell 1 0 = PyVal.ppair WHITE PAWN ∧
    initBoard.getCell 2 0 = PyVal.pnone ∧
    initBoard.getCell 3 0 = PyVal.pnone ∧
    initBoard.isLegalMove WHITE 1 0 3 0 = false := by
  decide

/-- Claim C4.  With an empty registry, `joinGame` does create a fresh
PENDING match holding only the joining player and returns the fresh
identifier.  But a second `joinGame` call, now with a nonempty games
dict, raises `TypeError` while unpacking the integer dict keys as
`(gameID, game)` pairs, so the second player never receives the same
gameID. -/
theorem c4_joinGame_second_call_raises :
    (TournamentSystem.joinGame ⟨[], []⟩ 1 true 42
      = Except.ok (⟨[(42, ChessMatch.init (some 1) true)], []⟩,
                   (true, [("gameID", 42)]))) ∧
    (ChessMatch.init (some 1) true).status = STATUS_PENDING ∧
    (ChessMatch.init (some 1) true).players_white = some 1 ∧
    (ChessMatch.init (some 1) true).players_black = none ∧
    (TournamentSystem.joinGame ⟨[(42, ChessMatch.init (some 1) true)], []⟩ 2 true 43
      = Except.error PyError.typeError) :=
  ⟨rfl, rfl, rfl, rfl, rfl⟩

/-- Claim C5.  The claim says a legal king move sets both castling
flags false and a rook move from its home file clears the matching
flag.  In the source `movedPiece` is a `(color, kind)` tuple compared
with the string constants `KING` and `ROOK`, a comparison that is false
for every cell value, so the castle flags are never updated: after the
WHITE KING moves from (0,4) (to (2,4), accepted by the unfinished
legality check) and after the WHITE ROOK moves from (0,0), the WHITE
flags still read `(true, true)`. -/
theorem c5_castle_flags_never_cleared :
    initBoard.getCell 0 4 = PyVal.ppair WHITE KING ∧
    (initBoard.makePly WHITE 0 4 2 4).2 = true ∧
    (initBoard.makePly WHITE 0 4 2 4).1.castle_white = (true, true) ∧
    initBoard.getCell 0 0 = PyVal.ppair WHITE ROOK ∧
    (initBoard.makePly WHITE 0 0 2 3).2 = true ∧
    (initBoard.makePly WHITE 0 0 2 3).1.castle_white = (true, true) := by
  decide

/-- Claim C6.  The claim says a pawn double advance sets the en passant
flag of the advanced file.  In the source the guard compares
`movedPiece`, a `(color, kind)` tuple, with the string constant `PAWN`,
which is always false, so after the legal WHITE double advance
(1,2) to (3,2) every WHITE en passant flag is still false. -/
theorem c6_enpassant_flag_never_set :
    (initBoard.makePly WHITE 1 2 3 2).2 = true ∧
    (initBoard.makePly WHITE 1 2 3 2).1.ep_white = List.replicate 8 false ∧
    (initBoard.makePly WHITE 1 2 3 2).1.ep_white.getD 2 false = false := by
  decide

/-- Claim C7.  When `isLegalMove` returns false, `ChessBoard.makePly`
returns `False` and the board value is returned unchanged in every
field: the legality check is the first statement and the rejection
branch performs no mutation. -/
theorem c7_makePly_rejects_without_mutation (b : ChessBoard) (color : PyVal)
    (fromRank fromFile toRank toFile : Nat)
    (h : b.isLegalMove color fromRank fromFile toRank toFile = false) :
    b.makePly color fromRank fromFile toRank toFile = (b, false) := by
  simp [ChessBoard.makePly, h]

/-- Witness for C7 at a concrete input: moving from the empty square
(3,3) of the initial board is illegal and leaves the board intact. -/
theorem c7_witness :
    initBoard.isLegalMove WHITE 3 3 4 4 = false ∧
    initBoard.makePly WHITE 3 3 4 4 = (initBoard, false) :=
  ⟨by decide, c7_makePly_rejects_without_mutation initBoard WHITE 3 3 4 4 (by decide)⟩

/-- Counterexample to claim C8 as stated: in a PENDING match whose
BLACK slot holds player 1 and whose history is empty, WHITE is to move,
so player 1 occupies the color that is not to move; yet `makePly` by
player 1 returns the not-in-progress message, not the not-your-turn
message (the status test precedes the turn test). -/
theorem c8_counterexample :
    (ChessMatch.mk initBoard none (some 1) STATUS_PENDING []).whoseTurn = WHITE ∧
    ((ChessMatch.mk initBoard none (some 1) STATUS_PENDING []).makePly 1 1 0 2 0).2
      = "Game not in progress" ∧
    ((ChessMatch.mk initBoard none (some 1) STATUS_PENDING []).makePly 1 1 0 2 0).2
      ≠ "It is not your turn" ∧
    ((ChessMatch.mk initBoard none (some 1) STATUS_PENDING []).makePly 1 1 0 2 0).1
      = ChessMatch.mk initBoard none (some 1) STATUS_PENDING [] := by
  decide

/-- Claim C8, amended: `whoseTurn` is WHITE exactly when the history
length is even; and in a match whose status is ONGOING, `makePly` by a
player who occupies the color not to move (and not the color to move)
fails with the not-your-turn message and leaves the whole match state,
history and board included, unchanged. -/
theorem c8_amended_turn_alternation (m : ChessMatch) (p : Nat)
    (fromRank fromFile toRank toFile : Nat) :
    (m.whoseTurn = WHITE ↔ m.history.length % 2 = 0) ∧
    (m.status = STATUS_ONGOING →
      ((m.whoseTurn = WHITE ∧ m.players_black = some p ∧ m.players_white ≠ some p) ∨
       (m.whoseTurn = BLACK ∧ m.players_white = some p ∧ m.players_black ≠ some p)) →
      m.makePly p fromRank fromFile toRank toFile = (m, "It is not your turn")) := by
  constructor
  · unfold ChessMatch.whoseTurn
    by_cases he : m.history.length % 2 = 0 <;> simp [he, WHITE, BLACK]
  · intro hs hocc
    rcases hocc with ⟨ht, hb, hw⟩ | ⟨ht, hw, hb⟩
    · simp [ChessMatch.makePly, hs, hb, hw, ht, WHITE, BLACK]
    · simp [ChessMatch.makePly, hs, hb, hw, ht, WHITE, BLACK]

/-- Witness for the amended C8 at a concrete input: in an ONGOING match
with WHITE to move, the player in the BLACK slot is told it is not
their turn and nothing changes. -/
theorem c8_amended_witness :
    (ChessMatch.mk initBoard (some 1) (some 2) STATUS_ONGOING []).makePly 2 1 0 2 0
      = (ChessMatch.mk initBoard (some 1) (some 2) STATUS_ONGOING [],
         "It is not your turn") := by
  have h := c8_amended_turn_alternation
    (ChessMatch.mk initBoard (some 1) (some 2) STATUS_ONGOING []) 2 1 0 2 0
  exact h.2 rfl (Or.inl ⟨by decide, rfl, by decide⟩)

/-- Claim C9.  `ChessMatch.join` returns `none` and changes nothing
when the status is not PENDING or when the playerID already occupies a
slot (and also when both slots are already full); otherwise it fills
the first empty slot in WHITE-then-BLACK order, returns that color, and
switches the status to ONGOING exactly when the assignment fills the
second slot. -/
theorem c9_join_spec (m : ChessMatch) (p : Nat) :
    ((m.status ≠ STATUS_PENDING ∨ m.players_white = some p ∨ m.players_black = some p) →
        m.join p = (m, none)) ∧
    ((m.status = STATUS_PENDING ∧ m.players_white = none ∧ m.players_black ≠ some p) →
        m.join p = ({ m with players_white := some p,
                             status := if m.players_black ≠ none then STATUS_ONGOING
                                       else STATUS_PENDING },
                    some WHITE)) ∧
    ((m.status = STATUS_PENDING ∧ m.players_white ≠ none ∧ m.players_white ≠ some p ∧
        m.players_black = none) →
        m.join p = ({ m with players_black := some p, status := STATUS_ONGOING },
                    some BLACK)) ∧
    ((m.status = STATUS_PENDING ∧ m.players_white ≠ none ∧ m.players_black ≠ none ∧
        m.players_white ≠ some p ∧ m.players_black ≠ some p) →
        m.join p = (m, none)) := by
  obtain ⟨bd, pw, pb, st, hi⟩ := m
  refine ⟨?_, ?_, ?_, ?_⟩
  · rintro (h | h | h)
    · simp [ChessMatch.join, h]
    · have h' : pw = some p := h
      by_cases hs : st = STATUS_PENDING <;> simp [ChessMatch.join, hs, h']
    · have h' : pb = some p := h
      by_cases hs : st = STATUS_PENDING <;> simp [ChessMatch.join, hs, h']
  · rintro ⟨h1, h2, h3⟩
    subst h1; subst h2
    by_cases hb : pb = none
    · subst hb; simp [ChessMatch.join]
    · simp [ChessMatch.join, hb, h3]
  · rintro ⟨h1, h2, h3, h4⟩
    subst h1; subst h4
    simp [ChessMatch.join, h2, h3]
  · rintro ⟨h1, h2, h3, h4, h5⟩
    subst h1
    simp [ChessMatch.join, h2, h3, h4, h5]

/-- Witness for C9 at a concrete input: joining a PENDING match whose
WHITE slot holds player 1 with the new player 2 assigns BLACK and
switches the status to ONGOING. -/
theorem c9_witness :
    (ChessMatch.mk initBoard (some 1) none STATUS_PENDING []).join 2
      = (ChessMatch.mk initBoard (some 1) (some 2) STATUS_ONGOING [], some BLACK) := by
  have h := (c9_join_spec (ChessMatch.mk initBoard (some 1) none STATUS_PENDING []) 2).2.2.1
  simpa using h ⟨rfl, by decide, by decide, rfl⟩

/-- Claim C10.  The claim says a legal move from the start state only
changes the origin and destination squares (plus, on en passant, the
captured pawn square).  In the start state ranks 2 through 5 reference
one shared row object, so the legal pawn move (1,2) to (3,2) also
writes the pawn into squares (2,2), (4,2) and (5,2), which held
emptiness before the move. -/
theorem c10_shared_row_frame_violation :
    (initBoard.makePly WHITE 1 2 3 2).2 = true ∧
    initBoard.getCell 2 2 = PyVal.pnone ∧
    initBoard.getCell 4 2 = PyVal.pnone ∧
    initBoard.getCell 5 2 = PyVal.pnone ∧
    (initBoard.makePly WHITE 1 2 3 2).1.getCell 1 2 = PyVal.pnone ∧
    (initBoard.makePly WHITE 1 2 3 2).1.getCell 3 2 = PyVal.ppair WHITE PAWN ∧
    (initBoard.makePly WHITE 1 2 3 2).1.getCell 2 2 = PyVal.ppair WHITE PAWN ∧
    (initBoard.makePly WHITE 1 2 3 2).1.getCell 4 2 = PyVal.ppair WHITE PAWN ∧
    (initBoard.makePly WHITE 1 2 3 2).1.getCell 5 2 = PyVal.ppair WHITE PAWN := by
  decide

end Maverick
